import Mathlib

/-!
Shallow embedding of the bio-mcp-fastqc MCP servers.

The repository contains three server variants:
* `src/server.py` — the basic `FastQCServer` with `fastqc_single`,
  `fastqc_batch` and `multiqc_report` operations;
* `src/server_enhanced.py` — the enhanced server with tool detection,
  exposing `fastqc`, `multiqc` and `fastqc_info`;
* `src/server_with_queue.py` — the queue-backed server adding `_async`
  variants and job-management operations.

Each handler is embedded as a pure Lean function over an explicit
environment record describing what the filesystem and the spawned
subprocess would do.  Besides the protocol result (a list of text/error
contents), every handler also returns the ordered list of observable
side effects (`Event`): subprocess spawns, kills and file copies.
-/

/-- Python `needle in haystack` substring test on strings. -/
def containsSub (hay need : String) : Bool :=
  (List.range (hay.data.length + 1)).any (fun i => need.data.isPrefixOf (hay.data.drop i))

/-- Python `s.startswith(p)`. -/
def pyStartsWith (s p : String) : Bool :=
  p.data.isPrefixOf s.data

/-- Python `s.endswith(p)`. -/
def strEndsWith (s p : String) : Bool :=
  p.data.isSuffixOf s.data

/-- Python `s[:-n]` (drop the last `n` characters). -/
def pyDropRight (s : String) (n : Nat) : String :=
  String.mk (s.data.take (s.data.length - n))

/-- Python `s[:n]` (first `n` characters). -/
def pyTake (s : String) (n : Nat) : String :=
  String.mk (s.data.take n)

/-- Python `str.split(c)` on character lists (single-character separator),
written with structural recursion so it evaluates inside the kernel. -/
def splitOnChar (c : Char) : List Char → List (List Char)
  | [] => [[]]
  | a :: rest =>
    match splitOnChar c rest with
    | [] => if a = c then [[], []] else [[a]]
    | h :: t => if a = c then [] :: h :: t else (a :: h) :: t

/-- `Path(p).name` — the final path component. -/
def pyName (p : String) : String :=
  String.mk ((splitOnChar '/' p.data).getLastD [])

/-- Index of the last occurrence of `'.'` in a character list (Python `rfind`). -/
def lastDotIndex (cs : List Char) : Option Nat :=
  ((List.range cs.length).filter (fun i => cs.getD i ' ' = '.')).getLast?

/-- `PurePath.stem` on a file name: the name minus its suffix, where the suffix
starts at the last dot provided that dot is neither the first nor the last
character of the name. -/
def pyStemName (nm : String) : String :=
  let cs := nm.data
  match lastDotIndex cs with
  | some i => if 0 < i ∧ i < cs.length - 1 then String.mk (cs.take i) else nm
  | none => nm

/-- `Path(p).stem`. -/
def pyStem (p : String) : String :=
  pyStemName (pyName p)

/-- Insert a comma after every three characters of a reversed digit list
(the grouping step of Python `f"{n:,}"`). -/
def groupThrees : List Char → List Char
  | a :: b :: c :: d :: rest => a :: b :: c :: ',' :: groupThrees (d :: rest)
  | l => l

/-- Python `f"{n:,}"` — decimal rendering with thousands separators. -/
def fmtComma (n : Nat) : String :=
  String.mk ((groupThrees (toString n).data.reverse).reverse)

/-- Content items returned to the MCP client: `TextContent` or `ErrorContent`. -/
inductive Content where
  | text (t : String)
  | error (t : String)
deriving DecidableEq

/-- Observable side effects of a handler, in order of occurrence. -/
inductive Event where
  | spawn (cmd : List String)
  | spawnCwd (cmd : List String) (cwd : String)
  | spawnShellCwd (cmd : String) (cwd : String)
  | kill
  | copyFile (src dst : String)
  | execTool (tool : String) (toolArgs : List String)
deriving DecidableEq

/-- Whether an event is a file copy (the staging action of the enhanced server). -/
def Event.isCopy : Event → Bool
  | .copyFile _ _ => true
  | _ => false

/-- What the awaited subprocess did: hit the timeout, or complete with a
return code and captured stdout/stderr. -/
inductive ProcOutcome where
  | timedOut
  | completed (returncode : Int) (stdout stderr : String)
deriving DecidableEq

/-- `ServerSettings` of the basic server (`src/server.py`). -/
structure ServerSettings where
  max_file_size : Nat := 10000000000
  temp_dir : Option String := none
  timeout : Nat := 1800
  fastqc_path : String := "fastqc"
  multiqc_path : String := "multiqc"

/-- Arguments of the `fastqc_single` operation. -/
structure SingleArgs where
  input_file : String
  threads : Nat := 1
  contaminants : Option String := none
  adapters : Option String := none
  limits : Option String := none

/-- A directory listing entry as seen by `Path.iterdir()`. -/
structure DirEntry where
  name : String
  isDir : Bool
deriving DecidableEq

/-- Environment of one `fastqc_single` call: what the filesystem and the
subprocess would answer at each effectful step of `_run_fastqc_single` and
`_parse_fastqc_results`. -/
structure SingleEnv where
  inputExists : Bool
  inputSize : Nat
  tmpdir : String
  proc : ProcOutcome
  outEntries : List DirEntry
  summaryExists : Bool
  summaryLines : List String
  dataExists : Bool
  dataContent : String

/-- Python `["--flag", v]` guarded by `if arguments.get(k):` — an absent or
empty string yields no flags. -/
def optFlag (flag : String) : Option String → List String
  | some v => if v.isEmpty then [] else [flag, v]
  | none => []

/-- Status glyph of `_parse_fastqc_results`. -/
def statusEmoji (status : String) : String :=
  if status = "PASS" then "✅" else if status = "WARN" then "⚠️" else "❌"

/-- The per-line rendering of `summary.txt` in `_parse_fastqc_results`. -/
def renderSummaryLines (lines : List String) : String :=
  lines.foldl (fun acc line =>
    let parts := line.trim.splitOn "\t"
    if 2 ≤ parts.length then
      acc ++ "  " ++ statusEmoji (parts.getD 0 "") ++ " " ++ parts.getD 1 ""
        ++ ": " ++ parts.getD 0 "" ++ "\n"
    else acc) ""

/-- The Basic-Statistics extraction loop of `_parse_fastqc_results`: scan the
lines of `fastqc_data.txt`, toggling on `>>Basic Statistics` and off at
`>>END_MODULE`, and render tab-separated key/value rows. -/
def renderBasicStats (content : String) : String :=
  ((content.splitOn "\n").foldl (fun (st : Bool × String) line =>
    if pyStartsWith line ">>Basic Statistics" then (true, st.2)
    else if pyStartsWith line ">>END_MODULE" then (false, st.2)
    else if st.1 && line.data.contains '\t' && !pyStartsWith line "#" then
      let parts := line.splitOn "\t"
      if 2 ≤ parts.length then
        (st.1, st.2 ++ "  • " ++ parts.getD 0 "" ++ ": " ++ parts.getD 1 "" ++ "\n")
      else (st.1, st.2)
    else (st.1, st.2)) (false, "")).2

/-- The directory-search loop of `_parse_fastqc_results`: the first entry of
`output_dir.iterdir()` that is a directory and whose name contains the input
file's base name. -/
def findFastqcDir : List DirEntry → String → Option DirEntry
  | [], _ => none
  | e :: rest, base =>
    if e.isDir && containsSub e.name base then some e else findFastqcDir rest base

/-- `_parse_fastqc_results` of the basic server. -/
def parseFastqcResults (env : SingleEnv) (output_dir filename_base : String) : String :=
  match findFastqcDir env.outEntries filename_base with
  | none => "FastQC completed but results directory not found"
  | some d =>
    let fastqc_dir := output_dir ++ "/" ++ d.name
    let data_file := fastqc_dir ++ "/fastqc_data.txt"
    let summary_file := fastqc_dir ++ "/summary.txt"
    let r := "FastQC Analysis Complete for " ++ filename_base ++ "\n"
      ++ String.mk (List.replicate 50 '=') ++ "\n\n"
    let r := if env.summaryExists then
        r ++ "Module Status Summary:\n" ++ renderSummaryLines env.summaryLines ++ "\n"
      else r
    let r := if env.dataExists then
        r ++ "Basic Statistics:\n" ++ renderBasicStats env.dataContent
      else r
    r ++ "\nOutput Files:\n"
      ++ "  • HTML Report: " ++ fastqc_dir ++ "/fastqc_report.html" ++ "\n"
      ++ "  • Data File: " ++ data_file ++ "\n"
      ++ "  • Summary: " ++ summary_file ++ "\n"

/-- `_run_fastqc_single` of the basic server (`src/server.py`). -/
def runFastqcSingle (s : ServerSettings) (env : SingleEnv) (a : SingleArgs) :
    List Content × List Event :=
  if !env.inputExists then
    ([Content.error ("Input file not found: " ++ a.input_file)], [])
  else if s.max_file_size < env.inputSize then
    ([Content.error ("File too large. Maximum size: " ++ toString s.max_file_size ++ " bytes")], [])
  else
    let output_dir := env.tmpdir ++ "/fastqc_output"
    let cmd := [s.fastqc_path, "--outdir", output_dir, "--threads", toString a.threads,
        "--extract"]
      ++ optFlag "--contaminants" a.contaminants
      ++ optFlag "--adapters" a.adapters
      ++ optFlag "--limits" a.limits
      ++ [a.input_file]
    match env.proc with
    | ProcOutcome.timedOut =>
      ([Content.error ("FastQC timed out after " ++ toString s.timeout ++ " seconds")],
       [Event.spawn cmd, Event.kill])
    | ProcOutcome.completed rc _ stderr =>
      if rc ≠ 0 then
        ([Content.error ("FastQC failed: " ++ stderr)], [Event.spawn cmd])
      else
        ([Content.text (parseFastqcResults env output_dir (pyStem a.input_file))],
         [Event.spawn cmd])

/-- Arguments of the `fastqc_batch` operation. -/
structure BatchArgs where
  input_dir : String
  file_pattern : String := "*.fastq*"
  threads : Nat := 4

/-- Environment of one `fastqc_batch` call: filesystem and subprocess answers
for `_run_fastqc_batch` and `_summarize_batch_results`.  `summaryOf` maps a
per-file output directory name to the lines of its `summary.txt` when that
file exists. -/
structure BatchEnv where
  dirExists : Bool
  globFiles : List String
  tmpdir : String
  proc : ProcOutcome
  outEntries : List DirEntry
  summaryOf : String → Option (List String)

/-- The base-name derivation of `_summarize_batch_results`:
`input_file.stem.replace(".fastq", "").replace(".fq", "")`. -/
def batchBaseName (f : String) : String :=
  (((pyStem f).replace ".fastq" "").replace ".fq" "")

/-- The pass/warn/fail counting of `_summarize_batch_results`: the number of
`summary.txt` lines starting with `PASS`, `WARN` and `FAIL` respectively. -/
def summaryCounts (lines : List String) : Nat × Nat × Nat :=
  ((lines.filter (fun l => pyStartsWith l "PASS")).length,
   (lines.filter (fun l => pyStartsWith l "WARN")).length,
   (lines.filter (fun l => pyStartsWith l "FAIL")).length)

/-- The per-file status glyph of `_summarize_batch_results`. -/
def fileGlyph (passes warns fails : Nat) : String :=
  if fails = 0 ∧ warns = 0 then "✅" else if fails = 0 then "⚠️" else "❌"

/-- `_summarize_batch_results` of the basic server. -/
def summarizeBatchResults (env : BatchEnv) (output_dir : String) (files : List String) :
    String :=
  let header := "FastQC Batch Analysis Complete\n" ++ String.mk (List.replicate 40 '=')
    ++ "\n\n" ++ "Processed " ++ toString files.length ++ " files:\n\n"
  let step := fun (st : String × Nat × Nat × Nat) (f : String) =>
    let noRes := (st.1 ++ "  ❓ " ++ pyName f ++ ": No results found\n",
      st.2.1, st.2.2.1, st.2.2.2)
    match findFastqcDir env.outEntries (batchBaseName f) with
    | some d =>
      match env.summaryOf d.name with
      | some lines =>
        let c := summaryCounts lines
        (st.1 ++ "  " ++ fileGlyph c.1 c.2.1 c.2.2 ++ " " ++ pyName f ++ ": "
           ++ toString c.1 ++ "P/" ++ toString c.2.1 ++ "W/" ++ toString c.2.2 ++ "F\n",
         st.2.1 + c.1, st.2.2.1 + c.2.1, st.2.2.2 + c.2.2)
      | none => noRes
    | none => noRes
  let fin := files.foldl step ("", 0, 0, 0)
  header ++ fin.1
    ++ "\nOverall Summary:\n"
    ++ "  • Total PASS: " ++ toString fin.2.1 ++ "\n"
    ++ "  • Total WARN: " ++ toString fin.2.2.1 ++ "\n"
    ++ "  • Total FAIL: " ++ toString fin.2.2.2 ++ "\n\n"
    ++ "Output directory: " ++ output_dir ++ "\n"
    ++ "\nTip: Run multiqc_report on this directory to generate a combined report!\n"

/-- `_run_fastqc_batch` of the basic server (`src/server.py`). -/
def runFastqcBatch (s : ServerSettings) (env : BatchEnv) (a : BatchArgs) :
    List Content × List Event :=
  if !env.dirExists then
    ([Content.error ("Input directory not found: " ++ a.input_dir)], [])
  else if env.globFiles.isEmpty then
    ([Content.error ("No files found matching pattern \x27" ++ a.file_pattern
        ++ "\x27 in " ++ a.input_dir)], [])
  else
    let output_dir := env.tmpdir ++ "/fastqc_batch_output"
    let cmd := [s.fastqc_path, "--outdir", output_dir, "--threads", toString a.threads,
        "--extract"] ++ env.globFiles
    match env.proc with
    | ProcOutcome.timedOut =>
      ([Content.error ("FastQC batch processing timed out after " ++ toString s.timeout
          ++ " seconds")],
       [Event.spawn cmd, Event.kill])
    | ProcOutcome.completed rc _ stderr =>
      if rc ≠ 0 then
        ([Content.error ("FastQC batch processing failed: " ++ stderr)], [Event.spawn cmd])
      else
        ([Content.text (summarizeBatchResults env output_dir env.globFiles)],
         [Event.spawn cmd])

/-- Arguments of the `multiqc_report` operation. -/
structure MultiqcArgs where
  input_dir : String
  title : Option String := none
  comment : Option String := none
  template : String := "default"

/-- Environment of one `multiqc_report` call. -/
structure MultiqcEnv where
  dirExists : Bool
  tmpdir : String
  proc : ProcOutcome
  reportExists : Bool
  reportSize : Nat
  statsExists : Bool
  statsContent : String
deriving DecidableEq

/-- The report-location header built by `_run_multiqc` on success: report
path, data-directory path, and the report size line when the HTML report
exists. -/
def multiqcHeader (env : MultiqcEnv) : String :=
  let output_dir := env.tmpdir ++ "/multiqc_output"
  let r := "MultiQC report generated successfully!\n\n"
    ++ "Report: " ++ (output_dir ++ "/multiqc_report.html") ++ "\n"
    ++ "Data directory: " ++ (output_dir ++ "/multiqc_data") ++ "\n\n"
  if env.reportExists then r ++ "Report size: " ++ fmtComma env.reportSize ++ " bytes\n"
  else r

/-- The general-statistics text appended by `_run_multiqc` when
`multiqc_general_stats.txt` exists: the first 1,000 characters of the file
followed (unconditionally) by an ellipsis marker. -/
def generalStatsBlock (stats : String) : String :=
  "\nGeneral Statistics:\n" ++ pyTake stats 1000 ++ "..."

/-- `_run_multiqc` of the basic server (`src/server.py`). -/
def runMultiqc (s : ServerSettings) (env : MultiqcEnv) (a : MultiqcArgs) :
    List Content × List Event :=
  if !env.dirExists then
    ([Content.error ("Input directory not found: " ++ a.input_dir)], [])
  else
    let output_dir := env.tmpdir ++ "/multiqc_output"
    let cmd := [s.multiqc_path, a.input_dir, "--outdir", output_dir, "--template", a.template]
      ++ optFlag "--title" a.title
      ++ optFlag "--comment" a.comment
    match env.proc with
    | ProcOutcome.timedOut =>
      ([Content.error ("MultiQC timed out after " ++ toString s.timeout ++ " seconds")],
       [Event.spawn cmd, Event.kill])
    | ProcOutcome.completed rc _ stderr =>
      if rc ≠ 0 then
        ([Content.error ("MultiQC failed: " ++ stderr)], [Event.spawn cmd])
      else
        let r := multiqcHeader env
        let r := if env.statsExists then
            r ++ generalStatsBlock env.statsContent
          else r
        ([Content.text r], [Event.spawn cmd])

/-- `ServerSettings` of the enhanced server (`src/server_enhanced.py`). -/
structure EnhSettings where
  max_file_size : Nat := 10000000000
  temp_dir : Option String := none
  timeout : Nat := 1800
  execution_mode : Option String := none
  preferred_modes : String := "native,module,lmod,singularity,docker"
  module_names : String := "fastqc,FastQC"
  container_image : String := "quay.io/biocontainers/fastqc:0.12.1"

/-- The Python exceptions that can cross `_execute_tool_command`: the
`asyncio.TimeoutError` raised by `wait_for` (whose `str` is empty) and the
`RuntimeError` raised for an unavailable tool. -/
inductive PyExc where
  | timeoutExc
  | runtimeError (msg : String)
deriving DecidableEq

/-- Python `str(e)` on those exceptions. -/
def excStr : PyExc → String
  | PyExc.timeoutExc => ""
  | PyExc.runtimeError m => m

/-- `_execute_tool_command` of the enhanced server: raises `RuntimeError` when
the tool resolved to `UNAVAILABLE`, otherwise spawns the detector-built
command (through a shell for module/lmod modes, directly otherwise) and
awaits it under `settings.timeout`.  There is no `TimeoutError` handler and
no `process.kill()` here: on timeout the exception propagates. -/
def executeToolCommand (toolName : String) (avail useShell : Bool)
    (execCmd : List String → List String) (proc : ProcOutcome)
    (tool_args : List String) (tmpdir : String) :
    Except PyExc (String × String × Int) × List Event :=
  if !avail then
    (Except.error (PyExc.runtimeError (toolName ++ " is not available in any execution mode")),
     [Event.execTool toolName tool_args])
  else
    let cmd := execCmd tool_args
    let ev := if useShell then Event.spawnShellCwd (String.intercalate " " cmd) tmpdir
      else Event.spawnCwd cmd tmpdir
    match proc with
    | ProcOutcome.timedOut =>
      (Except.error PyExc.timeoutExc, [Event.execTool toolName tool_args, ev])
    | ProcOutcome.completed rc out err =>
      (Except.ok (out, err, rc), [Event.execTool toolName tool_args, ev])

/-- Arguments of the enhanced `fastqc` operation. -/
structure EnhFastqcArgs where
  input_file : String
  output_format : String := "both"
  threads : Nat := 1
  quiet : Bool := false

/-- Environment of one enhanced `fastqc` call.  `execCmd` abstracts
`detector.get_execution_command(tool_info, ·)`; `outFiles` is the
post-run `Path(tmpdir).glob("*")` file listing as (name, size) pairs. -/
structure EnhFastqcEnv where
  inputExists : Bool
  inputSize : Nat
  tmpdir : String
  toolAvailable : Bool
  useShell : Bool
  execCmd : List String → List String
  proc : ProcOutcome
  outFiles : List (String × Nat)

/-- The FastQC argument list assembled by the enhanced `_run_fastqc` before
calling `_execute_tool_command`; its final element is the staged copy of the
input file inside the temporary working directory. -/
def enhFastqcToolArgs (env : EnhFastqcEnv) (a : EnhFastqcArgs) : List String :=
  ["-o", env.tmpdir, "-t", toString a.threads]
  ++ (if a.quiet then ["-q"] else [])
  ++ (if a.output_format = "html" then ["--nozip"]
      else if a.output_format = "zip" then ["--nohtml"] else [])
  ++ [env.tmpdir ++ "/" ++ pyName a.input_file]

/-- `_run_fastqc` of the enhanced server (`src/server_enhanced.py`).  The
event trace of the post-validation branches is the same whatever the tool
execution produced, so it is factored out of the match. -/
def runEnhFastqc (s : EnhSettings) (env : EnhFastqcEnv) (a : EnhFastqcArgs) :
    List Content × List Event :=
  if !env.inputExists then
    ([Content.error ("Input file not found: " ++ a.input_file)], [])
  else if s.max_file_size < env.inputSize then
    ([Content.error ("File too large. Maximum size: " ++ toString s.max_file_size ++ " bytes")], [])
  else
    let temp_input := env.tmpdir ++ "/" ++ pyName a.input_file
    let ex := executeToolCommand "fastqc" env.toolAvailable env.useShell env.execCmd
      env.proc (enhFastqcToolArgs env a) env.tmpdir
    (match ex.1 with
     | Except.error e => [Content.error ("Error: " ++ excStr e)]
     | Except.ok r =>
       if r.2.2 ≠ 0 then
         [Content.error ("FastQC failed: " ++ r.2.1)]
       else
         let output_files := env.outFiles.filter (fun f => f.1 ≠ pyName a.input_file)
         [Content.text ("FastQC completed successfully\\n"
           ++ "Generated " ++ toString output_files.length ++ " output files:\\n"
           ++ output_files.foldl (fun acc f =>
               acc ++ "- " ++ f.1 ++ " (" ++ toString f.2 ++ " bytes)\\n") "")],
     Event.copyFile a.input_file temp_input :: ex.2)

/-- Arguments of the enhanced `multiqc` operation. -/
structure EnhMultiqcArgs where
  input_dir : String
  report_title : Option String := none
  comment : Option String := none

/-- Environment of one enhanced `multiqc` call. -/
structure EnhMultiqcEnv where
  dirExists : Bool
  tmpdir : String
  toolAvailable : Bool
  useShell : Bool
  execCmd : List String → List String
  proc : ProcOutcome
  outFiles : List (String × Nat)

/-- The MultiQC argument list assembled by the enhanced `_run_multiqc`; its
final element is the original input directory path, used as-is. -/
def enhMultiqcToolArgs (env : EnhMultiqcEnv) (a : EnhMultiqcArgs) : List String :=
  ["-o", env.tmpdir]
  ++ optFlag "--title" a.report_title
  ++ optFlag "--comment" a.comment
  ++ [a.input_dir]

/-- `_run_multiqc` of the enhanced server (`src/server_enhanced.py`).  Note
that the input directory is passed to the tool as-is: no copy into the
temporary working directory happens anywhere in this handler. -/
def runEnhMultiqc (s : EnhSettings) (env : EnhMultiqcEnv) (a : EnhMultiqcArgs) :
    List Content × List Event :=
  if !env.dirExists then
    ([Content.error ("Input directory not found: " ++ a.input_dir)], [])
  else
    let ex := executeToolCommand "multiqc" env.toolAvailable env.useShell env.execCmd
      env.proc (enhMultiqcToolArgs env a) env.tmpdir
    (match ex.1 with
     | Except.error e => [Content.error ("Error: " ++ excStr e)]
     | Except.ok r =>
       if r.2.2 ≠ 0 then
         [Content.error ("MultiQC failed: " ++ r.2.1)]
       else
         [Content.text ("MultiQC completed successfully\\n"
           ++ "Generated " ++ toString env.outFiles.length ++ " output files:\\n"
           ++ env.outFiles.foldl (fun acc f =>
               acc ++ "- " ++ f.1 ++ " (" ++ toString f.2 ++ " bytes)\\n") "")],
     ex.2)

/-- JSON-style argument values of a tool call. -/
inductive JVal where
  | str (s : String)
  | num (n : Int)
  | jlist (l : List JVal)
  | boolean (b : Bool)
  | null

/-- Python `arguments.get(k)` over the argument mapping. -/
def lookupArg (args : List (String × JVal)) (k : String) : Option JVal :=
  (args.find? (fun p => p.1 == k)).map (fun p => p.2)

/-- Python `arguments.pop(k, d)`'s removal part. -/
def removeArg (args : List (String × JVal)) (k : String) : List (String × JVal) :=
  args.filter (fun p => p.1 != k)

/-- The job submission assembled by `_handle_async_tool`. -/
structure SubmitCall where
  job_type : String
  parameters : List (String × JVal)
  priority : JVal
  tags : JVal

/-- `_handle_async_tool` of the queue-backed server
(`src/server_with_queue.py`): pop `priority` (default 5), `tags` (default
empty list) and `notification_email` (default None, discarded) from the
arguments, then submit the remaining arguments as the job parameters. -/
def handleAsyncTool (jobType : String) (args : List (String × JVal)) : SubmitCall :=
  let priority := (lookupArg args "priority").getD (JVal.num 5)
  let a1 := removeArg args "priority"
  let tags := (lookupArg a1 "tags").getD (JVal.jlist [])
  let a2 := removeArg a1 "tags"
  let a3 := removeArg a2 "notification_email"
  { job_type := jobType, parameters := a3, priority := priority, tags := tags }

/-- The `async_tool_configs` keys of `_setup_async_handlers`, with the
`job_type` each maps to. -/
def asyncToolConfigs : List (String × String) :=
  [("fastqc_single", "fastqc_single"),
   ("fastqc_batch", "fastqc_batch"),
   ("multiqc_report", "multiqc_report")]

/-- Where the queue-backed server's `call_tool` routes a request. -/
inductive Dispatch where
  | asyncSubmit (sc : SubmitCall)
  | jobStatus (jobId : Option JVal)
  | jobResult (jobId : Option JVal)
  | listJobs
  | cancel (jobId : Option JVal)
  | delegate (name : String)

/-- The `call_tool` dispatcher of the queue-backed server
(`src/server_with_queue.py`).  `none` models the Python function returning
`None`: a name ending in `_async` whose base is not a configured tool falls
out of the `if` without reaching the `elif`/`else` chain. -/
def queueCallTool (name : String) (args : List (String × JVal)) : Option Dispatch :=
  if strEndsWith name "_async" = true then
    let base := pyDropRight name 6
    match asyncToolConfigs.find? (fun p => p.1 == base) with
    | some cfg => some (Dispatch.asyncSubmit (handleAsyncTool cfg.2 args))
    | none => none
  else if name = "get_job_status" then some (Dispatch.jobStatus (lookupArg args "job_id"))
  else if name = "get_job_result" then some (Dispatch.jobResult (lookupArg args "job_id"))
  else if name = "list_my_jobs" then some Dispatch.listJobs
  else if name = "cancel_job" then some (Dispatch.cancel (lookupArg args "job_id"))
  else some (Dispatch.delegate name)

/-! Claim theorems. -/

/-- C1: for every `fastqc_single` call whose input file exists and whose size
exceeds `settings.max_file_size`, the handler returns an InvalidInput error
naming the configured limit, and no subprocess is spawned. -/
theorem fastqc_single_rejects_oversized (s : ServerSettings) (env : SingleEnv)
    (a : SingleArgs) (hex : env.inputExists = true)
    (hsz : s.max_file_size < env.inputSize) :
    runFastqcSingle s env a =
      ([Content.error ("File too large. Maximum size: " ++ toString s.max_file_size
          ++ " bytes")], [])
    ∧ ∃ pre post,
        ("File too large. Maximum size: " ++ toString s.max_file_size ++ " bytes")
          = pre ++ toString s.max_file_size ++ post := by
  refine ⟨?_, "File too large. Maximum size: ", " bytes", rfl⟩
  simp [runFastqcSingle, hex, hsz]

def c1S : ServerSettings := { max_file_size := 10 }

def c1E : SingleEnv :=
  { inputExists := true, inputSize := 11, tmpdir := "/tmp/t",
    proc := ProcOutcome.completed 0 "" "", outEntries := [], summaryExists := false,
    summaryLines := [], dataExists := false, dataContent := "" }

def c1A : SingleArgs := { input_file := "/data/reads.fastq" }

/-- Witness for C1 at a concrete oversized input. -/
theorem fastqc_single_rejects_oversized_inst :
    runFastqcSingle c1S c1E c1A =
      ([Content.error ("File too large. Maximum size: " ++ toString c1S.max_file_size
          ++ " bytes")], [])
    ∧ ∃ pre post,
        ("File too large. Maximum size: " ++ toString c1S.max_file_size ++ " bytes")
          = pre ++ toString c1S.max_file_size ++ post :=
  fastqc_single_rejects_oversized c1S c1E c1A rfl (by decide)

/-- C5: a `fastqc_single` run whose subprocess hits the configured timeout
kills the subprocess and returns an error containing the exact configured
timeout value in seconds. -/
theorem fastqc_single_timeout_kill_and_message (s : ServerSettings) (env : SingleEnv)
    (a : SingleArgs) (hex : env.inputExists = true)
    (hsz : env.inputSize ≤ s.max_file_size) (ht : env.proc = ProcOutcome.timedOut) :
    (runFastqcSingle s env a).1
      = [Content.error ("FastQC timed out after " ++ toString s.timeout ++ " seconds")]
    ∧ Event.kill ∈ (runFastqcSingle s env a).2
    ∧ ∃ pre, ("FastQC timed out after " ++ toString s.timeout ++ " seconds")
        = pre ++ toString s.timeout ++ " seconds" := by
  have hnot : ¬ s.max_file_size < env.inputSize := Nat.not_lt.mpr hsz
  refine ⟨?_, ?_, "FastQC timed out after ", rfl⟩
  · simp [runFastqcSingle, hex, hnot, ht]
  · simp [runFastqcSingle, hex, hnot, ht]

def c5E : SingleEnv :=
  { inputExists := true, inputSize := 5, tmpdir := "/tmp/t",
    proc := ProcOutcome.timedOut, outEntries := [], summaryExists := false,
    summaryLines := [], dataExists := false, dataContent := "" }

/-- Witness for C5 at a concrete timed-out run with the default settings. -/
theorem fastqc_single_timeout_kill_and_message_inst :
    (runFastqcSingle {} c5E c1A).1
      = [Content.error ("FastQC timed out after "
          ++ toString (ServerSettings.timeout {}) ++ " seconds")]
    ∧ Event.kill ∈ (runFastqcSingle {} c5E c1A).2
    ∧ ∃ pre, ("FastQC timed out after " ++ toString (ServerSettings.timeout {}) ++ " seconds")
        = pre ++ toString (ServerSettings.timeout {}) ++ " seconds" :=
  fastqc_single_timeout_kill_and_message {} c5E c1A rfl (by decide) rfl

/-- C8: a `fastqc_batch` call whose directory exists but whose pattern matches
no files returns an InvalidInput error naming both the pattern and the
directory, with no subprocess spawned. -/
theorem fastqc_batch_no_match_rejects (s : ServerSettings) (env : BatchEnv)
    (a : BatchArgs) (hd : env.dirExists = true) (hg : env.globFiles = []) :
    runFastqcBatch s env a =
      ([Content.error ("No files found matching pattern \x27" ++ a.file_pattern
          ++ "\x27 in " ++ a.input_dir)], [])
    ∧ ∃ x y, ("No files found matching pattern \x27" ++ a.file_pattern
          ++ "\x27 in " ++ a.input_dir)
        = x ++ a.file_pattern ++ y ++ a.input_dir := by
  refine ⟨?_, "No files found matching pattern \x27", "\x27 in ", rfl⟩
  simp [runFastqcBatch, hd, hg]

def c8E : BatchEnv :=
  { dirExists := true, globFiles := [], tmpdir := "/tmp/t",
    proc := ProcOutcome.completed 0 "" "", outEntries := [],
    summaryOf := fun _ => none }

def c8A : BatchArgs := { input_dir := "/data/runs" }

/-- Witness for C8 at a concrete empty glob. -/
theorem fastqc_batch_no_match_rejects_inst :
    runFastqcBatch {} c8E c8A =
      ([Content.error ("No files found matching pattern \x27" ++ c8A.file_pattern
          ++ "\x27 in " ++ c8A.input_dir)], [])
    ∧ ∃ x y, ("No files found matching pattern \x27" ++ c8A.file_pattern
          ++ "\x27 in " ++ c8A.input_dir)
        = x ++ c8A.file_pattern ++ y ++ c8A.input_dir :=
  fastqc_batch_no_match_rejects {} c8E c8A rfl rfl

/-- C6: the batch summarizer counts `summary.txt` lines beginning with PASS,
WARN and FAIL (the three-line example yields 1/1/1), and the per-file glyph is
the fail glyph exactly when the fail count is positive, the warn glyph when
the warn count is positive and the fail count is zero, and the pass glyph
otherwise. -/
theorem batch_counts_and_glyph :
    summaryCounts ["PASS\tBasic Statistics", "WARN\tPer base sequence quality",
        "FAIL\tAdapter Content"] = (1, 1, 1)
    ∧ ∀ p w f : Nat, fileGlyph p w f =
        if 0 < f then "❌" else if 0 < w then "⚠️" else "✅" := by
  refine ⟨by decide, ?_⟩
  intro p w f
  rcases f with _ | f
  · rcases w with _ | w
    · simp [fileGlyph]
    · simp [fileGlyph]
  · simp [fileGlyph]

/-- C9: the result interpreter locates the results directory as the first
directory entry whose name contains the input file's base name, and when no
such entry exists a successful `fastqc_single` run still returns a text
content reporting that the results directory was not found. -/
theorem fastqc_single_results_dir_lookup (s : ServerSettings) (env : SingleEnv)
    (a : SingleArgs) (out err : String)
    (hex : env.inputExists = true) (hsz : env.inputSize ≤ s.max_file_size)
    (hp : env.proc = ProcOutcome.completed 0 out err)
    (hnone : findFastqcDir env.outEntries (pyStem a.input_file) = none) :
    (∀ entries base, findFastqcDir entries base
        = entries.find? (fun e => e.isDir && containsSub e.name base))
    ∧ (runFastqcSingle s env a).1
        = [Content.text "FastQC completed but results directory not found"] := by
  have hnot : ¬ s.max_file_size < env.inputSize := Nat.not_lt.mpr hsz
  constructor
  · intro entries base
    induction entries with
    | nil => rfl
    | cons e rest ih =>
      by_cases h : (e.isDir && containsSub e.name base) = true
      · simp [findFastqcDir, h, List.find?]
      · simp only [Bool.not_eq_true] at h
        simp [findFastqcDir, h, List.find?, ih]
  · simp [runFastqcSingle, hex, hnot, hp, parseFastqcResults, hnone]

def c9E : SingleEnv :=
  { inputExists := true, inputSize := 5, tmpdir := "/tmp/t",
    proc := ProcOutcome.completed 0 "" "",
    outEntries := [{ name := "other_dir", isDir := true },
                   { name := "reads_fastqc", isDir := false }],
    summaryExists := false, summaryLines := [], dataExists := false, dataContent := "" }

/-- Witness for C9: a successful run whose output directory holds no matching
subdirectory. -/
theorem fastqc_single_results_dir_lookup_inst :
    (∀ entries base, findFastqcDir entries base
        = entries.find? (fun e => e.isDir && containsSub e.name base))
    ∧ (runFastqcSingle {} c9E c1A).1
        = [Content.text "FastQC completed but results directory not found"] :=
  fastqc_single_results_dir_lookup {} c9E c1A "" "" rfl (by decide) rfl (by decide)

/-- Taking at least the whole length of a string is the identity. -/
theorem pyTake_of_length_le (s : String) (n : Nat) (h : s.data.length ≤ n) :
    pyTake s n = s := by
  unfold pyTake
  rw [List.take_of_length_le h]

def c4S : ServerSettings := {}

def c4E : MultiqcEnv :=
  { dirExists := true, tmpdir := "/tmp/m", proc := ProcOutcome.completed 0 "" "",
    reportExists := false, reportSize := 0, statsExists := true, statsContent := "abc" }

def c4A : MultiqcArgs := { input_dir := "/data/results" }

set_option maxRecDepth 8000 in
/-- Counterexample to C4 as stated: with a `multiqc_general_stats.txt` of only
3 characters the returned text still carries the ellipsis marker, so the
excerpt is NOT the bare file content; it is the content followed by the
truncation artifact. -/
theorem multiqc_excerpt_short_cex :
    c4E.statsContent.data.length < 1000
    ∧ (runMultiqc c4S c4E c4A).1
        = [Content.text ("MultiQC report generated successfully!\n\nReport: /tmp/m/multiqc_output/multiqc_report.html\nData directory: /tmp/m/multiqc_output/multiqc_data\n\n\nGeneral Statistics:\nabc...")]
    ∧ strEndsWith "MultiQC report generated successfully!\n\nReport: /tmp/m/multiqc_output/multiqc_report.html\nData directory: /tmp/m/multiqc_output/multiqc_data\n\n\nGeneral Statistics:\nabc..."
        ("\nGeneral Statistics:\n" ++ c4E.statsContent) = false
    ∧ strEndsWith "MultiQC report generated successfully!\n\nReport: /tmp/m/multiqc_output/multiqc_report.html\nData directory: /tmp/m/multiqc_output/multiqc_data\n\n\nGeneral Statistics:\nabc..."
        ("\nGeneral Statistics:\n" ++ c4E.statsContent ++ "...") = true := by
  refine ⟨by decide, by decide, by decide, by decide⟩

/-- C4 amended: the general-statistics excerpt of a `multiqc_report` run is
always the first `min(length, 1000)` characters of the file followed by the
ellipsis marker — the full content plus the marker for short files, the first
1,000 characters plus the marker for long files. -/
theorem multiqc_excerpt_always_ellipsis (s : ServerSettings) (env : MultiqcEnv)
    (a : MultiqcArgs) (out err : String)
    (hd : env.dirExists = true) (hp : env.proc = ProcOutcome.completed 0 out err)
    (hs : env.statsExists = true) :
    (∀ stats : String, stats.data.length ≤ 1000 →
      generalStatsBlock stats = "\nGeneral Statistics:\n" ++ stats ++ "...")
    ∧ ∃ pre, (runMultiqc s env a).1
        = [Content.text (pre ++ generalStatsBlock env.statsContent)] := by
  constructor
  · intro stats hlen
    unfold generalStatsBlock
    rw [pyTake_of_length_le _ _ hlen]
  · exact ⟨multiqcHeader env, by simp [runMultiqc, hd, hp, hs]⟩

/-- Witness for the amended C4 at a concrete short stats file. -/
theorem multiqc_excerpt_always_ellipsis_inst :
    (∀ stats : String, stats.data.length ≤ 1000 →
      generalStatsBlock stats = "\nGeneral Statistics:\n" ++ stats ++ "...")
    ∧ ∃ pre, (runMultiqc c4S c4E c4A).1
        = [Content.text (pre ++ generalStatsBlock c4E.statsContent)] :=
  multiqc_excerpt_always_ellipsis c4S c4E c4A "" "" rfl rfl rfl

/-- Appending the empty string is the identity. -/
theorem append_empty_str (s : String) : s ++ "" = s := by
  cases s with
  | mk l => show String.mk (l ++ []) = String.mk l
            rw [List.append_nil]

/-- The last element of `l1 ++ l2 ++ l3 ++ [x]` is `x`. -/
theorem last_of_append_singleton {α : Type _} (l1 l2 l3 : List α) (x : α) :
    (l1 ++ l2 ++ l3 ++ [x]).getLast? = some x := by
  rw [List.getLast?_append_cons]
  rfl

/-- `_execute_tool_command` always records the tool invocation first. -/
theorem executeToolCommand_events (toolName : String) (avail useShell : Bool)
    (execCmd : List String → List String) (proc : ProcOutcome)
    (ta : List String) (td : String) :
    ∃ rest, (executeToolCommand toolName avail useShell execCmd proc ta td).2
      = Event.execTool toolName ta :: rest := by
  cases avail <;> cases proc <;> exact ⟨_, rfl⟩

/-- `_execute_tool_command` performs no file copy. -/
theorem executeToolCommand_no_copy (toolName : String) (avail useShell : Bool)
    (execCmd : List String → List String) (proc : ProcOutcome)
    (ta : List String) (td : String) :
    ((executeToolCommand toolName avail useShell execCmd proc ta td).2.all
      (fun e => !e.isCopy)) = true := by
  cases avail <;> cases proc <;> cases useShell <;>
    simp [executeToolCommand, Event.isCopy]

/-- `_execute_tool_command` never kills the subprocess. -/
theorem executeToolCommand_no_kill (toolName : String) (avail useShell : Bool)
    (execCmd : List String → List String) (proc : ProcOutcome)
    (ta : List String) (td : String) :
    Event.kill ∉ (executeToolCommand toolName avail useShell execCmd proc ta td).2 := by
  cases avail <;> cases proc <;> cases useShell <;> simp [executeToolCommand]

/-- Past validation, the enhanced `fastqc` handler's event trace starts with
the staging copy, followed by the tool execution's events. -/
theorem runEnhFastqc_events (s : EnhSettings) (env : EnhFastqcEnv) (a : EnhFastqcArgs)
    (hex : env.inputExists = true) (hsz : env.inputSize ≤ s.max_file_size) :
    (runEnhFastqc s env a).2
      = Event.copyFile a.input_file (env.tmpdir ++ "/" ++ pyName a.input_file)
        :: (executeToolCommand "fastqc" env.toolAvailable env.useShell env.execCmd
            env.proc (enhFastqcToolArgs env a) env.tmpdir).2 := by
  have hnot : ¬ s.max_file_size < env.inputSize := Nat.not_lt.mpr hsz
  simp [runEnhFastqc, hex, hnot]

/-- The enhanced `multiqc` handler's event trace is exactly the tool
execution's events. -/
theorem runEnhMultiqc_events (s : EnhSettings) (env : EnhMultiqcEnv) (a : EnhMultiqcArgs)
    (hd : env.dirExists = true) :
    (runEnhMultiqc s env a).2
      = (executeToolCommand "multiqc" env.toolAvailable env.useShell env.execCmd
          env.proc (enhMultiqcToolArgs env a) env.tmpdir).2 := by
  simp [runEnhMultiqc, hd]

def c2S : EnhSettings := {}

def c2ME : EnhMultiqcEnv :=
  { dirExists := true, tmpdir := "/tmp/w", toolAvailable := true, useShell := false,
    execCmd := fun ts => "multiqc" :: ts, proc := ProcOutcome.completed 0 "" "",
    outFiles := [] }

def c2MA : EnhMultiqcArgs := { input_dir := "/data/results" }

/-- Counterexample to C2 as stated: an enhanced `multiqc` invocation whose
event trace contains no copy at all and whose tool command carries the
original input directory path, not a staged copy. -/
theorem enh_multiqc_not_staged_cex :
    (runEnhMultiqc c2S c2ME c2MA).2
      = [Event.execTool "multiqc" ["-o", "/tmp/w", "/data/results"],
         Event.spawnCwd ["multiqc", "-o", "/tmp/w", "/data/results"] "/tmp/w"]
    ∧ ((runEnhMultiqc c2S c2ME c2MA).2.all (fun e => !e.isCopy)) = true
    ∧ c2MA.input_dir = "/data/results" :=
  ⟨rfl, rfl, rfl⟩

/-- C2 amended: the enhanced `fastqc` handler stages its input file by
copying it into the temporary working directory before the tool runs and
invokes the tool on the staged copy (its last argument), while the enhanced
`multiqc` handler performs no staging: it never copies and hands the tool
the original input directory path as its last argument. -/
theorem enh_staging_semantics (s : EnhSettings) (envF : EnhFastqcEnv) (aF : EnhFastqcArgs)
    (envM : EnhMultiqcEnv) (aM : EnhMultiqcArgs)
    (hexF : envF.inputExists = true) (hszF : envF.inputSize ≤ s.max_file_size)
    (hdM : envM.dirExists = true) :
    (∃ rest, (runEnhFastqc s envF aF).2
        = Event.copyFile aF.input_file (envF.tmpdir ++ "/" ++ pyName aF.input_file)
          :: Event.execTool "fastqc" (enhFastqcToolArgs envF aF) :: rest)
    ∧ (enhFastqcToolArgs envF aF).getLast?
        = some (envF.tmpdir ++ "/" ++ pyName aF.input_file)
    ∧ ((runEnhMultiqc s envM aM).2.all (fun e => !e.isCopy)) = true
    ∧ (∃ rest, (runEnhMultiqc s envM aM).2
        = Event.execTool "multiqc" (enhMultiqcToolArgs envM aM) :: rest)
    ∧ (enhMultiqcToolArgs envM aM).getLast? = some aM.input_dir := by
  obtain ⟨r1, h1⟩ := executeToolCommand_events "fastqc" envF.toolAvailable envF.useShell
    envF.execCmd envF.proc (enhFastqcToolArgs envF aF) envF.tmpdir
  obtain ⟨r2, h2⟩ := executeToolCommand_events "multiqc" envM.toolAvailable envM.useShell
    envM.execCmd envM.proc (enhMultiqcToolArgs envM aM) envM.tmpdir
  refine ⟨⟨r1, ?_⟩, ?_, ?_, ⟨r2, ?_⟩, ?_⟩
  · rw [runEnhFastqc_events s envF aF hexF hszF, h1]
  · unfold enhFastqcToolArgs
    exact last_of_append_singleton _ _ _ _
  · rw [runEnhMultiqc_events s envM aM hdM]
    exact executeToolCommand_no_copy _ _ _ _ _ _ _
  · rw [runEnhMultiqc_events s envM aM hdM, h2]
  · unfold enhMultiqcToolArgs
    exact last_of_append_singleton _ _ _ _

def c2FE : EnhFastqcEnv :=
  { inputExists := true, inputSize := 5, tmpdir := "/tmp/w", toolAvailable := true,
    useShell := false, execCmd := fun ts => "fastqc" :: ts,
    proc := ProcOutcome.completed 0 "" "", outFiles := [] }

def c2FA : EnhFastqcArgs := { input_file := "/data/reads.fastq" }

/-- Witness for the amended C2 at concrete enhanced runs. -/
theorem enh_staging_semantics_inst :
    (∃ rest, (runEnhFastqc c2S c2FE c2FA).2
        = Event.copyFile c2FA.input_file (c2FE.tmpdir ++ "/" ++ pyName c2FA.input_file)
          :: Event.execTool "fastqc" (enhFastqcToolArgs c2FE c2FA) :: rest)
    ∧ (enhFastqcToolArgs c2FE c2FA).getLast?
        = some (c2FE.tmpdir ++ "/" ++ pyName c2FA.input_file)
    ∧ ((runEnhMultiqc c2S c2ME c2MA).2.all (fun e => !e.isCopy)) = true
    ∧ (∃ rest, (runEnhMultiqc c2S c2ME c2MA).2
        = Event.execTool "multiqc" (enhMultiqcToolArgs c2ME c2MA) :: rest)
    ∧ (enhMultiqcToolArgs c2ME c2MA).getLast? = some c2MA.input_dir :=
  enh_staging_semantics c2S c2FE c2FA c2ME c2MA rfl (by decide) rfl

def c3FE : EnhFastqcEnv :=
  { inputExists := true, inputSize := 5, tmpdir := "/tmp/w", toolAvailable := true,
    useShell := false, execCmd := fun ts => "fastqc" :: ts,
    proc := ProcOutcome.timedOut, outFiles := [] }

/-- Counterexample to C3 as stated: an enhanced `fastqc` run whose subprocess
times out is not killed, and the returned error text is the bare catch-all
message, which does not contain the configured 1800-second timeout value. -/
theorem enh_timeout_cex :
    (runEnhFastqc c2S c3FE c2FA).1 = [Content.error "Error: "]
    ∧ containsSub "Error: " (toString c2S.timeout) = false
    ∧ Event.kill ∉ (runEnhFastqc c2S c3FE c2FA).2 :=
  ⟨rfl, by decide, by decide⟩

def c3ME : EnhMultiqcEnv :=
  { dirExists := true, tmpdir := "/tmp/w", toolAvailable := true, useShell := false,
    execCmd := fun ts => "multiqc" :: ts, proc := ProcOutcome.timedOut, outFiles := [] }

/-- C3 amended: when the subprocess of an enhanced `fastqc` or `multiqc`
invocation exceeds `settings.timeout`, the `TimeoutError` escapes
`_execute_tool_command` (which has no timeout handler) into the operation's
catch-all, so the operation returns the generic text `Error: ` — which does
not name the timeout duration — and the subprocess is never killed. -/
theorem enh_timeout_generic_error (s : EnhSettings) (envF : EnhFastqcEnv)
    (aF : EnhFastqcArgs) (envM : EnhMultiqcEnv) (aM : EnhMultiqcArgs)
    (hexF : envF.inputExists = true) (hszF : envF.inputSize ≤ s.max_file_size)
    (havF : envF.toolAvailable = true) (htF : envF.proc = ProcOutcome.timedOut)
    (hdM : envM.dirExists = true) (havM : envM.toolAvailable = true)
    (htM : envM.proc = ProcOutcome.timedOut) :
    (runEnhFastqc s envF aF).1 = [Content.error "Error: "]
    ∧ Event.kill ∉ (runEnhFastqc s envF aF).2
    ∧ (runEnhMultiqc s envM aM).1 = [Content.error "Error: "]
    ∧ Event.kill ∉ (runEnhMultiqc s envM aM).2 := by
  have hnotF : ¬ s.max_file_size < envF.inputSize := Nat.not_lt.mpr hszF
  have hkF := executeToolCommand_no_kill "fastqc" envF.toolAvailable envF.useShell
    envF.execCmd envF.proc (enhFastqcToolArgs envF aF) envF.tmpdir
  have hkM := executeToolCommand_no_kill "multiqc" envM.toolAvailable envM.useShell
    envM.execCmd envM.proc (enhMultiqcToolArgs envM aM) envM.tmpdir
  refine ⟨?_, ?_, ?_, ?_⟩
  · simp [runEnhFastqc, hexF, hnotF, executeToolCommand, havF, htF, excStr,
      append_empty_str]
  · rw [runEnhFastqc_events s envF aF hexF hszF]
    simp [List.mem_cons, hkF]
  · simp [runEnhMultiqc, hdM, executeToolCommand, havM, htM, excStr, append_empty_str]
  · rw [runEnhMultiqc_events s envM aM hdM]
    exact hkM

/-- Witness for the amended C3 at concrete timed-out enhanced runs. -/
theorem enh_timeout_generic_error_inst :
    (runEnhFastqc c2S c3FE c2FA).1 = [Content.error "Error: "]
    ∧ Event.kill ∉ (runEnhFastqc c2S c3FE c2FA).2
    ∧ (runEnhMultiqc c2S c3ME c2MA).1 = [Content.error "Error: "]
    ∧ Event.kill ∉ (runEnhMultiqc c2S c3ME c2MA).2 :=
  enh_timeout_generic_error c2S c3FE c2FA c3ME c2MA rfl (by decide) rfl rfl rfl rfl rfl

/-- Looking an argument up after removing a different key is unchanged. -/
theorem lookupArg_removeArg (args : List (String × JVal)) (k k2 : String)
    (h : ¬ k = k2) : lookupArg (removeArg args k2) k = lookupArg args k := by
  induction args with
  | nil => rfl
  | cons a t ih =>
    by_cases ha : a.1 = k2
    · have h1 : (a.1 != k2) = false := by simp [ha]
      have h2 : (a.1 == k) = false := by
        rw [ha]
        simp only [beq_eq_false_iff_ne]
        exact fun hh => h hh.symm
      simpa [removeArg, lookupArg, List.filter_cons, List.find?_cons, h1, h2] using ih
    · have h1 : (a.1 != k2) = true := by simp [bne_iff_ne, ha]
      by_cases hk : a.1 = k
      · have h2 : (a.1 == k) = true := by simp [hk]
        simp [removeArg, lookupArg, List.filter_cons, List.find?_cons, h1, h2]
      · have h2 : (a.1 == k) = false := by simp [hk]
        simpa [removeArg, lookupArg, List.filter_cons, List.find?_cons, h1, h2] using ih

/-- C7: every async submission pops `priority` (default 5), `tags` (default
empty list) and `notification_email` from the argument set, forwards the
remaining arguments unchanged as the job parameters of the given job type,
and submits with the extracted priority and tags. -/
theorem async_submission_strips_queue_keys (jt : String) (args : List (String × JVal)) :
    (handleAsyncTool jt args).job_type = jt
    ∧ (handleAsyncTool jt args).parameters
        = args.filter (fun p =>
            !(p.1 == "priority" || p.1 == "tags" || p.1 == "notification_email"))
    ∧ (handleAsyncTool jt args).priority = (lookupArg args "priority").getD (JVal.num 5)
    ∧ (handleAsyncTool jt args).tags = (lookupArg args "tags").getD (JVal.jlist []) := by
  refine ⟨rfl, ?_, rfl, ?_⟩
  · show removeArg (removeArg (removeArg args "priority") "tags") "notification_email" = _
    induction args with
    | nil => rfl
    | cons a t ih =>
      cases h1 : (a.1 == "priority") <;> cases h2 : (a.1 == "tags") <;>
        cases h3 : (a.1 == "notification_email") <;>
        simp [removeArg, List.filter_cons, bne, h1, h2, h3] <;>
        simpa [removeArg] using ih
  · show (lookupArg (removeArg args "priority") "tags").getD (JVal.jlist []) = _
    rw [lookupArg_removeArg args "tags" "priority" (by decide)]

/-- C10: a queue-backed-server tool call whose name ends in `_async` but
whose base name is not one of the three configured tools falls through the
dispatcher with no result at all — no content, no error, no delegation. -/
theorem queue_unknown_async_falls_through (name : String) (args : List (String × JVal))
    (h1 : strEndsWith name "_async" = true)
    (h2 : pyDropRight name 6 ≠ "fastqc_single")
    (h3 : pyDropRight name 6 ≠ "fastqc_batch")
    (h4 : pyDropRight name 6 ≠ "multiqc_report") :
    queueCallTool name args = none := by
  have e2 : (("fastqc_single" : String) == pyDropRight name 6) = false := by
    simp only [beq_eq_false_iff_ne]
    exact fun hh => h2 hh.symm
  have e3 : (("fastqc_batch" : String) == pyDropRight name 6) = false := by
    simp only [beq_eq_false_iff_ne]
    exact fun hh => h3 hh.symm
  have e4 : (("multiqc_report" : String) == pyDropRight name 6) = false := by
    simp only [beq_eq_false_iff_ne]
    exact fun hh => h4 hh.symm
  have hf : asyncToolConfigs.find? (fun p => p.1 == pyDropRight name 6) = none := by
    simp [asyncToolConfigs, List.find?_cons, e2, e3, e4]
  simp [queueCallTool, h1, hf]

/-- Witness for C10 at a concrete unconfigured async name. -/
theorem queue_unknown_async_falls_through_inst :
    queueCallTool "bogus_async" [] = none :=
  queue_unknown_async_falls_through "bogus_async" [] (by decide) (by decide) (by decide)
    (by decide)
